import Mathlib

/-!
Verification of the multi-stage agent pipeline in
`sdk/ai/azure-ai-projects/samples/agents/sample_agents_use_webpage_contents.py`
and of the base64 helpers in
`sdk/tables/azure-data-tables/azure/data/tables/_common_conversion.py`.

Text is modelled as `List Char` (Python `str`), byte strings as `List Nat`
with values below 256.  Calls to the remote agent service, the portal HTTP
endpoint and the filesystem are modelled by an explicit environment that
fixes the outcome of every external call; the pipeline functions are direct
translations of the Python control flow over that environment, and they
record every agent/thread create/delete call in an event trace.
-/

/-- The apostrophe character (codepoint 39), written via `Char.ofNat`. -/
def squote : Char := Char.ofNat 39

/-- The double-quote character (codepoint 34). -/
def dquote : Char := Char.ofNat 34

/-- The backslash character (codepoint 92). -/
def backslashChar : Char := Char.ofNat 92

/-- Python regex `\s` on the ASCII range: space, tab, newline, vertical tab,
form feed, carriage return.  (The inputs of this pipeline are ASCII where it
matters; the Unicode white-space characters of Python `\s` are outside the
modelled alphabet.) -/
def isPySpace (c : Char) : Bool :=
  c == ' ' || c == Char.ofNat 9 || c == Char.ofNat 10 ||
  c == Char.ofNat 11 || c == Char.ofNat 12 || c == Char.ofNat 13

/-- A character allowed inside the captured path of the regex
`(?:link)?:?\s*["\x27]?(\/document-definitions\/[^\s"\x27\\]+)` in
`parse_relative_path_with_regex` (source lines 152-165): anything except
white space, a double quote, a single quote, or a backslash. -/
def validTokenChar (c : Char) : Bool :=
  !(isPySpace c) && c != dquote && c != squote && c != backslashChar

/-- The literal `link` of the optional label in the regex. -/
def linkChars : List Char := ['l', 'i', 'n', 'k']

/-- The tail of the mandatory literal `/document-definitions/` (all characters
after the leading slash). -/
def docTailChars : List Char :=
  ['d', 'o', 'c', 'u', 'm', 'e', 'n', 't', '-',
   'd', 'e', 'f', 'i', 'n', 'i', 't', 'i', 'o', 'n', 's', '/']

/-- The mandatory literal `/document-definitions/` of the regex. -/
def docPath : List Char := '/' :: docTailChars

theorem linkChars_spelling : linkChars = "link".toList := by decide

theorem docPath_spelling : docPath = "/document-definitions/".toList := by decide

/-- The `(?:link)?` element: consume the literal `link` if present. -/
def skipLink (s : List Char) : List Char :=
  if linkChars.isPrefixOf s then s.drop 4 else s

/-- The `:?` element: consume one colon if present. -/
def skipColon : List Char → List Char
  | c :: r => if c = ':' then r else c :: r
  | [] => []

/-- The `["\x27]?` element: consume one quote character if present. -/
def skipQuote : List Char → List Char
  | c :: r => if c = dquote || c = squote then r else c :: r
  | [] => []

/-- The optional-prefix part of the regex, `(?:link)?:?\s*["\x27]?`, executed
greedily.  On this particular pattern greedy matching never needs to
backtrack: whenever an optional element is present at the current position,
skipping it instead would leave the following mandatory element looking at a
character (`l`, `:`, white space, or a quote) that can never start the rest
of the pattern, so the greedy choice is the only one that can succeed. -/
def skipLabel (s : List Char) : List Char :=
  skipQuote ((skipColon (skipLink s)).dropWhile isPySpace)

/-- One attempt of the regex at a fixed start position: skip the optional
label/colon/white-space/quote prefix, then require the literal
`/document-definitions/` followed by at least one `validTokenChar`; the
captured group is the literal together with the maximal run of such
characters. -/
def matchAt (s : List Char) : Option (List Char) :=
  let s4 := skipLabel s
  if docPath.isPrefixOf s4 then
    let tok := (s4.drop docPath.length).takeWhile validTokenChar
    if tok = [] then none else some (docPath ++ tok)
  else none

/-- `re.search`: try `matchAt` at every position, left to right, returning the
leftmost match. -/
def reSearch : List Char → Option (List Char)
  | [] => none
  | c :: rest =>
    match matchAt (c :: rest) with
    | some r => some r
    | none => reSearch rest

/-- Python `str.rstrip("\x27")`: remove every trailing single quote. -/
def pyRstripSquote (s : List Char) : List Char :=
  (s.reverse.dropWhile (fun c => c == squote)).reverse

/-- `parse_relative_path_with_regex` (source lines 152-165): search for the
pattern and strip trailing single quotes from the captured group; `none` when
there is no match (the `else` branch logging and returning `None`).  The
`try/except` wrapper can only return `None` as well, so the function is total
with an `Option` result. -/
def parse_relative_path_with_regex (message_content : List Char) : Option (List Char) :=
  (reSearch message_content).map pyRstripSquote

/-- The literal `http` tested by `relative_path.startswith("http")`. -/
def httpChars : List Char := ['h', 't', 't', 'p']

theorem httpChars_spelling : httpChars = "http".toList := by decide

/-- Absolute-URL resolution, source lines 224-228 of `process_topic`: a path
already starting with `http` is kept unchanged, otherwise the base URL and the
URL suffix (called `url_postfix` in the source) are wrapped around it. -/
def resolve_selected_link (base_url url_suffix relative_path : List Char) : List Char :=
  if httpChars.isPrefixOf relative_path then relative_path
  else base_url ++ relative_path ++ url_suffix

/-- `base_url` as computed in `main` for the constant `OUTDIR = "sosmeta"`
(source line 326). -/
def mainBaseUrl : List Char := "https://sosmeta.thl.fi".toList

/-- `url_postfix` as set in `main` (source line 327). -/
def mainUrlSuffix : List Char := "/schema".toList

/-- Python `str.replace(pat, repl)` for a non-empty pattern: replace every
non-overlapping occurrence, scanning left to right.  The `Nat` argument is
fuel (at least the length of the subject string), a termination device only:
each step consumes at least one character of the subject. -/
def replaceAllAux : Nat → List Char → List Char → List Char → List Char
  | 0, _, _, s => s
  | Nat.succ n, pat, repl, s =>
    match s with
    | [] => []
    | c :: rest =>
      if pat ≠ [] ∧ pat.isPrefixOf (c :: rest) then
        repl ++ replaceAllAux n pat repl ((c :: rest).drop pat.length)
      else
        c :: replaceAllAux n pat repl rest

/-- Python `s.replace(pat, repl)` (non-empty `pat`). -/
def replaceAll (pat repl s : List Char) : List Char :=
  replaceAllAux s.length pat repl s

/-- Kinds of remote agents created by the pipeline: the content parser, the
per-group link selector, and the per-group form filler. -/
inductive AgentKind
  | parserA
  | selectorA
  | fillerA
deriving DecidableEq

/-- Kinds of remote threads created by the pipeline: the parser thread, the
short-lived per-topic selector thread, and the long-lived per-group form
filler thread. -/
inductive ThreadKind
  | parserT
  | selectorT
  | fillerT
deriving DecidableEq

/-- One observable call to the remote service.  `id` is an instrumentation
tag, unique per created resource in a run, so that a delete call can be
matched to the create call whose handle it receives.  A create call that the
service refuses (the wrapper returned `None`) produces no event and no
handle.  `fetchSearch` records the one `fetch_web_page_content` call of the
index-rebuild path (source line 372). -/
inductive Event
  | createAgent (k : AgentKind) (id : Nat)
  | deleteAgent (k : AgentKind) (id : Nat)
  | createThread (k : ThreadKind) (id : Nat)
  | deleteThread (k : ThreadKind) (id : Nat)
  | fetchSearch
deriving DecidableEq

/-- Tags for the audit files written by `process_topic` via `write_to_file`. -/
inductive WTag
  | selectedLink
  | combinedLink
  | instructionsContent
  | filledForm
deriving DecidableEq

/-- Outcomes of every external call made by one `process_topic` invocation.
`selectorReply` collapses `list_messages` plus `extract_assistant_reply` on
the selector thread: `none` means `list_messages` failed, `some none` means no
assistant text was found, `some (some s)` is the reply text.  `fillerReply`
does the same for the form-filler thread.  `selDeleteFails` says whether the
`delete_thread` call on source line 222 raises (the exception is caught by the
`except` on line 277, so the topic is skipped).  `fetch` gives the result of
`fetch_web_page_content` for the resolved link. -/
structure TopicOracle where
  selectorThreadOk : Bool
  selectorMessageOk : Bool
  selectorRunOk : Bool
  selectorReply : Option (Option (List Char))
  selDeleteFails : Bool
  fetch : List Char → Option (List Char)
  fillerMessageOk : Bool
  fillerRunOk : Bool
  fillerReply : Option (Option (List Char))

/-- Result of one `process_topic` invocation: the lifecycle events it caused,
the audit files it wrote (tag and content), the returned value (`none` for
every skip path and for the exception handler on line 277), and the next
fresh instrumentation id.  Every invocation consumes exactly one id — the id
reserved for its selector thread, used only if that thread is created. -/
structure TopicOut where
  events : List Event
  writes : List (WTag × List Char)
  result : Option (List Char)
  fresh : Nat

/-- `process_topic` (source lines 168-279), translated branch by branch.  The
selector thread is created once (line 172) and — whichever branch runs — the
function issues exactly one `delete_thread` call for it: on each failure
branch before line 222, or on line 222 itself on the success path.  A raising
delete on the failure branches is caught on line 277 and changes nothing
observable; on the success path a raising delete (modelled by
`selDeleteFails`) aborts the rest of the topic.  Python truthiness tests
(`if not x`) make the empty string count as a failure, hence the explicit
comparisons with `[]`. -/
def process_topic (o : TopicOracle) (base_url url_suffix topic : List Char) (fresh : Nat) :
    TopicOut :=
  if o.selectorThreadOk = false then
    { events := [], writes := [], result := none, fresh := fresh + 1 }
  else if o.selectorMessageOk = false then
    { events := [Event.createThread ThreadKind.selectorT fresh,
                 Event.deleteThread ThreadKind.selectorT fresh],
      writes := [], result := none, fresh := fresh + 1 }
  else if o.selectorRunOk = false then
    { events := [Event.createThread ThreadKind.selectorT fresh,
                 Event.deleteThread ThreadKind.selectorT fresh],
      writes := [], result := none, fresh := fresh + 1 }
  else
    match o.selectorReply with
    | none =>
      { events := [Event.createThread ThreadKind.selectorT fresh,
                   Event.deleteThread ThreadKind.selectorT fresh],
        writes := [], result := none, fresh := fresh + 1 }
    | some none =>
      { events := [Event.createThread ThreadKind.selectorT fresh,
                   Event.deleteThread ThreadKind.selectorT fresh],
        writes := [], result := none, fresh := fresh + 1 }
    | some (some selected_link) =>
      if selected_link = [] then
        { events := [Event.createThread ThreadKind.selectorT fresh,
                     Event.deleteThread ThreadKind.selectorT fresh],
          writes := [], result := none, fresh := fresh + 1 }
      else
        match parse_relative_path_with_regex selected_link with
        | none =>
          { events := [Event.createThread ThreadKind.selectorT fresh,
                       Event.deleteThread ThreadKind.selectorT fresh],
            writes := [(WTag.selectedLink, selected_link)],
            result := none, fresh := fresh + 1 }
        | some relative_path =>
          if o.selDeleteFails then
            { events := [Event.createThread ThreadKind.selectorT fresh,
                         Event.deleteThread ThreadKind.selectorT fresh],
              writes := [(WTag.selectedLink, selected_link)],
              result := none, fresh := fresh + 1 }
          else
            match o.fetch (resolve_selected_link base_url url_suffix relative_path) with
            | none =>
              { events := [Event.createThread ThreadKind.selectorT fresh,
                           Event.deleteThread ThreadKind.selectorT fresh],
                writes := [(WTag.selectedLink, selected_link),
                           (WTag.combinedLink,
                            resolve_selected_link base_url url_suffix relative_path)],
                result := none, fresh := fresh + 1 }
            | some content =>
              if content = [] then
                { events := [Event.createThread ThreadKind.selectorT fresh,
                             Event.deleteThread ThreadKind.selectorT fresh],
                  writes := [(WTag.selectedLink, selected_link),
                             (WTag.combinedLink,
                              resolve_selected_link base_url url_suffix relative_path)],
                  result := none, fresh := fresh + 1 }
              else if o.fillerMessageOk = false then
                { events := [Event.createThread ThreadKind.selectorT fresh,
                             Event.deleteThread ThreadKind.selectorT fresh],
                  writes := [(WTag.selectedLink, selected_link),
                             (WTag.combinedLink,
                              resolve_selected_link base_url url_suffix relative_path),
                             (WTag.instructionsContent, content)],
                  result := none, fresh := fresh + 1 }
              else if o.fillerRunOk = false then
                { events := [Event.createThread ThreadKind.selectorT fresh,
                             Event.deleteThread ThreadKind.selectorT fresh],
                  writes := [(WTag.selectedLink, selected_link),
                             (WTag.combinedLink,
                              resolve_selected_link base_url url_suffix relative_path),
                             (WTag.instructionsContent, content)],
                  result := none, fresh := fresh + 1 }
              else
                match o.fillerReply with
                | none =>
                  { events := [Event.createThread ThreadKind.selectorT fresh,
                               Event.deleteThread ThreadKind.selectorT fresh],
                    writes := [(WTag.selectedLink, selected_link),
                               (WTag.combinedLink,
                                resolve_selected_link base_url url_suffix relative_path),
                               (WTag.instructionsContent, content)],
                    result := none, fresh := fresh + 1 }
                | some none =>
                  { events := [Event.createThread ThreadKind.selectorT fresh,
                               Event.deleteThread ThreadKind.selectorT fresh],
                    writes := [(WTag.selectedLink, selected_link),
                               (WTag.combinedLink,
                                resolve_selected_link base_url url_suffix relative_path),
                               (WTag.instructionsContent, content)],
                    result := none, fresh := fresh + 1 }
                | some (some filled_form) =>
                  if filled_form = [] then
                    { events := [Event.createThread ThreadKind.selectorT fresh,
                                 Event.deleteThread ThreadKind.selectorT fresh],
                      writes := [(WTag.selectedLink, selected_link),
                                 (WTag.combinedLink,
                                  resolve_selected_link base_url url_suffix relative_path),
                                 (WTag.instructionsContent, content)],
                      result := none, fresh := fresh + 1 }
                  else
                    { events := [Event.createThread ThreadKind.selectorT fresh,
                                 Event.deleteThread ThreadKind.selectorT fresh],
                      writes := [(WTag.selectedLink, selected_link),
                                 (WTag.combinedLink,
                                  resolve_selected_link base_url url_suffix relative_path),
                                 (WTag.instructionsContent, content),
                                 (WTag.filledForm,
                                  replaceAll ("```".toList) []
                                    (replaceAll ("```json".toList) [] filled_form))],
                      result := some (replaceAll ("```".toList) []
                                       (replaceAll ("```json".toList) [] filled_form)),
                      fresh := fresh + 1 }

/-- Outcome of the cache-or-rebuild section of `main` (source lines 358-434):
the fresh file was loaded, the index was rebuilt, or `main` returned early
(either on an unusable fresh file, on a rebuild failure, or because a delete
of the parser resources raised into the run-level handler on line 509). -/
inductive CacheOutcome
  | loaded
  | rebuilt
  | aborted
deriving DecidableEq

/-- Outcomes of every external call made by one run of `main`.  `configOk`
covers the `os.environ` lookups and client construction on lines 321-328 (a
`KeyError` there is caught by the run-level handler before anything is
created).  `fileDate` is the `timestamp_created` value of
`parser_response.yaml` as read by `get_file_creation_time_from_yaml`, in days:
`none` stands both for a missing key (the function returns `None`) and for a
malformed value (the date subtraction raises and the `except` on line 302
returns `True`) — both make `is_file_older_than_a_week` answer `true`.
`cacheReadOk` / `rereadOk` say whether `read_yaml_file` produced a value with
a non-empty `links` section (lines 362-366 and 426-430).  The `...Ok` fields
for creates say whether the wrapper returned a handle; the `...Fails` fields
for deletes say whether the raw `delete_agent` / `delete_thread` call raises
(in `main` such an exception is caught only by the run-level handler on line
509, which ends the run).  Create-success and delete-failure functions are
indexed by the instrumentation id the resource gets or has.  `topicEnv i` is
the oracle for the topic at position `i` of the topic list. -/
structure Env where
  configOk : Bool
  fileExists : Bool
  fileDate : Option Int
  today : Int
  cacheReadOk : Bool
  fetchIndexOk : Bool
  parserAgentOk : Bool
  parserThreadOk : Bool
  parserMessageOk : Bool
  parserRunOk : Bool
  parserListOk : Bool
  parserReply : Option (List Char)
  rereadOk : Bool
  parserDeleteAgentFails : Bool
  parserDeleteThreadFails : Bool
  fillerAgentOk : Nat → Bool
  fillerThreadOk : Nat → Bool
  selectorAgentOk : Nat → Bool
  deleteAgentFails : Nat → Bool
  deleteThreadFails : Nat → Bool
  topicEnv : Nat → TopicOracle

/-- `is_file_older_than_a_week` (source lines 295-304).  Dates are modelled in
whole days (`datetime.date` subtraction yields whole days), so Python's
`> timedelta(weeks=1)` is `today - d > 7`.  When
`get_file_creation_time_from_yaml` yields no usable date (missing key →
`None`, malformed value → `TypeError` caught on line 302) the function
returns `True`. -/
def is_file_older_than_a_week (today : Int) (fileDate : Option Int) : Bool :=
  match fileDate with
  | some d => decide (today - d > 7)
  | none => true

/-- The cache-or-rebuild section of `main` (source lines 358-434).  The fresh
branch (lines 360-366) performs no fetch and creates nothing.  The rebuild
branch always starts with the `fetch_web_page_content` call on line 372
(recorded as `fetchSearch`); the parser agent gets instrumentation id 0 and
the parser thread id 1.  Note the failure branches between the creation of
the parser resources (lines 378-430) and their deletion (lines 433-434)
return without deleting them. -/
def cachePhase (env : Env) : List Event × CacheOutcome :=
  if env.fileExists && !(is_file_older_than_a_week env.today env.fileDate) then
    if env.cacheReadOk then ([], CacheOutcome.loaded) else ([], CacheOutcome.aborted)
  else
    if env.fetchIndexOk = false then
      ([Event.fetchSearch], CacheOutcome.aborted)
    else if env.parserAgentOk = false then
      ([Event.fetchSearch], CacheOutcome.aborted)
    else if env.parserThreadOk = false then
      ([Event.fetchSearch, Event.createAgent AgentKind.parserA 0], CacheOutcome.aborted)
    else if env.parserMessageOk = false then
      ([Event.fetchSearch, Event.createAgent AgentKind.parserA 0,
        Event.createThread ThreadKind.parserT 1], CacheOutcome.aborted)
    else if env.parserRunOk = false then
      ([Event.fetchSearch, Event.createAgent AgentKind.parserA 0,
        Event.createThread ThreadKind.parserT 1], CacheOutcome.aborted)
    else if env.parserListOk = false then
      ([Event.fetchSearch, Event.createAgent AgentKind.parserA 0,
        Event.createThread ThreadKind.parserT 1], CacheOutcome.aborted)
    else
      match env.parserReply with
      | none =>
        ([Event.fetchSearch, Event.createAgent AgentKind.parserA 0,
          Event.createThread ThreadKind.parserT 1], CacheOutcome.aborted)
      | some r =>
        if r.all isPySpace then
          ([Event.fetchSearch, Event.createAgent AgentKind.parserA 0,
            Event.createThread ThreadKind.parserT 1], CacheOutcome.aborted)
        else if env.rereadOk = false then
          ([Event.fetchSearch, Event.createAgent AgentKind.parserA 0,
            Event.createThread ThreadKind.parserT 1], CacheOutcome.aborted)
        else if env.parserDeleteAgentFails then
          ([Event.fetchSearch, Event.createAgent AgentKind.parserA 0,
            Event.createThread ThreadKind.parserT 1,
            Event.deleteAgent AgentKind.parserA 0], CacheOutcome.aborted)
        else if env.parserDeleteThreadFails then
          ([Event.fetchSearch, Event.createAgent AgentKind.parserA 0,
            Event.createThread ThreadKind.parserT 1,
            Event.deleteAgent AgentKind.parserA 0,
            Event.deleteThread ThreadKind.parserT 1], CacheOutcome.aborted)
        else
          ([Event.fetchSearch, Event.createAgent AgentKind.parserA 0,
            Event.createThread ThreadKind.parserT 1,
            Event.deleteAgent AgentKind.parserA 0,
            Event.deleteThread ThreadKind.parserT 1], CacheOutcome.rebuilt)

/-- The loop state of `main`: the next fresh instrumentation id and the
current group's selector agent, filler agent and filler thread handles
(`none` before the first group), plus the `is_first_topic` flag. -/
structure LoopSt where
  fresh : Nat
  selector : Option Nat
  fillerA : Option Nat
  fillerT : Option Nat
  isFirst : Bool

/-- `topic.startswith("#")` (source line 445). -/
def isHashTopic (t : List Char) : Bool :=
  match t with
  | c :: _ => c = '#'
  | [] => false

/-- The cleanup after the loop (source lines 502-508): delete the selector
agent, the filler agent, then the filler thread, each guarded by existence.
A raising delete is caught only by the run-level handler, so the remaining
deletes are skipped. -/
def endCleanup (env : Env) (st : LoopSt) : List Event :=
  let e1 : List Event :=
    match st.selector with
    | some s => [Event.deleteAgent AgentKind.selectorA s]
    | none => []
  if (match st.selector with | some s => env.deleteAgentFails s | none => false) then e1
  else
    let e2 := e1 ++
      (match st.fillerA with
       | some a => [Event.deleteAgent AgentKind.fillerA a]
       | none => [])
    if (match st.fillerA with | some a => env.deleteAgentFails a | none => false) then e2
    else
      e2 ++
        (match st.fillerT with
         | some h => [Event.deleteThread ThreadKind.fillerT h]
         | none => [])

/-- The topic loop of `main` (source lines 444-508), returning the event
trace and the list of positions whose topic was handed to `process_topic`.
On a group marker (or on the first topic, marker or not): delete the previous
filler agent and thread, create the new filler agent (id `fresh`) and thread
(id `fresh + 1`), delete the previous selector agent, create the new selector
agent (id `fresh + 2`), then `continue`.  A failed create returns from `main`
("Exiting"); a raising delete is caught only by the run-level handler — both
end the run, dropping the remaining topics and the end-of-run cleanup.  On a
leaf topic: call `process_topic` and continue regardless of its outcome (the
result is not even inspected, source line 499). -/
def mainLoop (env : Env) : List (List Char) → Nat → LoopSt → List Event × List Nat
  | [], _, st => (endCleanup env st, [])
  | t :: rest, i, st =>
    if isHashTopic t || st.isFirst then
      let ev1 : List Event :=
        match st.fillerA with
        | some a => [Event.deleteAgent AgentKind.fillerA a]
        | none => []
      if (match st.fillerA with | some a => env.deleteAgentFails a | none => false) then
        (ev1, [])
      else
        let ev2 := ev1 ++
          (match st.fillerT with
           | some h => [Event.deleteThread ThreadKind.fillerT h]
           | none => [])
        if (match st.fillerT with | some h => env.deleteThreadFails h | none => false) then
          (ev2, [])
        else if env.fillerAgentOk st.fresh = false then
          (ev2, [])
        else
          let ev3 := ev2 ++ [Event.createAgent AgentKind.fillerA st.fresh]
          if env.fillerThreadOk (st.fresh + 1) = false then
            (ev3, [])
          else
            let ev4 := ev3 ++ [Event.createThread ThreadKind.fillerT (st.fresh + 1)]
            let ev5 := ev4 ++
              (match st.selector with
               | some s => [Event.deleteAgent AgentKind.selectorA s]
               | none => [])
            if (match st.selector with | some s => env.deleteAgentFails s | none => false) then
              (ev5, [])
            else if env.selectorAgentOk (st.fresh + 2) = false then
              (ev5, [])
            else
              let ev6 := ev5 ++ [Event.createAgent AgentKind.selectorA (st.fresh + 2)]
              let r := mainLoop env rest (i + 1)
                { fresh := st.fresh + 3, selector := some (st.fresh + 2),
                  fillerA := some st.fresh, fillerT := some (st.fresh + 1), isFirst := false }
              (ev6 ++ r.1, r.2)
    else
      let out := process_topic (env.topicEnv i) mainBaseUrl mainUrlSuffix t st.fresh
      let r := mainLoop env rest (i + 1)
        { fresh := out.fresh, selector := st.selector,
          fillerA := st.fillerA, fillerT := st.fillerT, isFirst := st.isFirst }
      (out.events ++ r.1, i :: r.2)

/-- The initial loop state: ids 0 and 1 are reserved for the parser agent and
thread of the rebuild path, so the loop starts handing out ids at 2. -/
def loopSt0 : LoopSt :=
  { fresh := 2, selector := none, fillerA := none, fillerT := none, isFirst := true }

/-- `main` (source lines 317-510): configuration, the cache-or-rebuild
section, then the topic loop.  The topic list is a parameter (it models the
content of `sosmeta_topics.yml` flattened on lines 333-337). -/
def mainRun (env : Env) (topics : List (List Char)) : List Event × List Nat :=
  if env.configOk = false then ([], [])
  else
    match cachePhase env with
    | (evs, CacheOutcome.aborted) => (evs, [])
    | (evs, _) =>
      let r := mainLoop env topics 0 loopSt0
      (evs ++ r.1, r.2)

/-- The topic list of the group-lifecycle scenario:
group marker A, two leaf topics, group marker B, one leaf topic. -/
def topicsABB : List (List Char) :=
  ["# A".toList, "t1".toList, "t2".toList, "# B".toList, "t3".toList]

/-- UTF-8 encoding of one code point (standard 1-4 byte forms). -/
def utf8EncodeChar (n : Nat) : List Nat :=
  if n < 128 then [n]
  else if n < 2048 then [192 + n / 64, 128 + n % 64]
  else if n < 65536 then [224 + n / 4096, 128 + n / 64 % 64, 128 + n % 64]
  else [240 + n / 262144, 128 + n / 4096 % 64, 128 + n / 64 % 64, 128 + n % 64]

/-- Python `str.encode("utf-8")`. -/
def utf8Encode (s : List Char) : List Nat :=
  s.flatMap (fun c => utf8EncodeChar c.toNat)

/-- The standard base64 alphabet as byte values: `A`-`Z`, `a`-`z`, `0`-`9`,
`+`, `/` for the sextets 0-63. -/
def b64Byte (n : Nat) : Nat :=
  if n < 26 then 65 + n
  else if n < 52 then 71 + n
  else if n < 62 then n - 4
  else if n = 62 then 43
  else 47

/-- `base64.b64encode` on bytes: 3-byte groups become 4 alphabet bytes; a
final group of 1 or 2 bytes is padded with `=` (byte 61). -/
def b64encodeBytes : List Nat → List Nat
  | [] => []
  | [a] => [b64Byte (a / 4), b64Byte (a % 4 * 16), 61, 61]
  | [a, b] => [b64Byte (a / 4), b64Byte (a % 4 * 16 + b / 16), b64Byte (b % 16 * 4), 61]
  | a :: b :: c :: rest =>
    b64Byte (a / 4) :: b64Byte (a % 4 * 16 + b / 16) ::
      b64Byte (b % 16 * 4 + c / 64) :: b64Byte (c % 64) :: b64encodeBytes rest

/-- The inverse alphabet lookup for valid base64 bytes.  (Python's
`b64decode` with `validate=False` discards other characters; this model is
only ever applied to output of the encoder, which is made of alphabet bytes
and padding.) -/
def b64Val (n : Nat) : Nat :=
  if 65 ≤ n ∧ n ≤ 90 then n - 65
  else if 97 ≤ n ∧ n ≤ 122 then n - 71
  else if 48 ≤ n ∧ n ≤ 57 then n + 4
  else if n = 43 then 62
  else if n = 47 then 63
  else 0

/-- `base64.b64decode` on properly padded input: 4-byte groups become 3
bytes; `=` padding in the last group shortens it to 1 or 2 bytes. -/
def b64decodeBytes : List Nat → List Nat
  | a :: b :: c :: d :: rest =>
    if c = 61 then [b64Val a * 4 + b64Val b / 16]
    else if d = 61 then
      [b64Val a * 4 + b64Val b / 16, b64Val b % 16 * 16 + b64Val c / 4]
    else
      (b64Val a * 4 + b64Val b / 16) :: (b64Val b % 16 * 16 + b64Val c / 4) ::
        (b64Val c % 4 * 64 + b64Val d) :: b64decodeBytes rest
  | _ => []

/-- A Python value that is either `str` or `bytes`, as accepted by the two
helpers of `_common_conversion.py`. -/
inductive PyBytesLike
  | str (s : List Char)
  | bytes (b : List Nat)

/-- The `if isinstance(data, str): data = data.encode("utf-8")` step shared by
both helpers (source lines 31-32 and 38-39). -/
def pyToBytes : PyBytesLike → List Nat
  | PyBytesLike.str s => utf8Encode s
  | PyBytesLike.bytes b => b

/-- `_encode_base64` (source lines 30-34): UTF-8-encode a `str` argument,
base64-encode, and decode the ASCII result back to a `str`. -/
def _encode_base64 (data : PyBytesLike) : List Char :=
  (b64encodeBytes (pyToBytes data)).map Char.ofNat

/-- `_decode_base64_to_bytes` (source lines 37-40): UTF-8-encode a `str`
argument, then base64-decode to bytes. -/
def _decode_base64_to_bytes (data : PyBytesLike) : List Nat :=
  b64decodeBytes (pyToBytes data)

/-- `t` is obtained from `s` by dropping a (possibly empty) run of characters
none of which is a slash. -/
def NoSlashDrop (s t : List Char) : Prop :=
  ∃ d, s = d ++ t ∧ ∀ c ∈ d, c ≠ '/'

theorem noSlashDrop_refl (s : List Char) : NoSlashDrop s s :=
  ⟨[], rfl, by simp⟩

theorem noSlashDrop_trans {s t u : List Char}
    (h1 : NoSlashDrop s t) (h2 : NoSlashDrop t u) : NoSlashDrop s u := by
  obtain ⟨d1, rfl, hd1⟩ := h1
  obtain ⟨d2, rfl, hd2⟩ := h2
  exact ⟨d1 ++ d2, by simp, by
    intro c hc
    rcases List.mem_append.1 hc with h | h
    · exact hd1 c h
    · exact hd2 c h⟩

theorem skipLink_noSlashDrop (s : List Char) : NoSlashDrop s (skipLink s) := by
  unfold skipLink
  by_cases h : linkChars.isPrefixOf s
  · simp only [h, if_true]
    obtain ⟨t, ht⟩ := List.isPrefixOf_iff_prefix.1 h
    refine ⟨linkChars, ?_, by decide⟩
    rw [← ht]
    simp [linkChars]
  · simp only [h, if_false]
    exact noSlashDrop_refl s

theorem skipColon_noSlashDrop (s : List Char) : NoSlashDrop s (skipColon s) := by
  match s with
  | [] => exact noSlashDrop_refl []
  | c :: r =>
    by_cases hc : c = ':'
    · simp only [skipColon, hc, if_true]
      exact ⟨[':'], rfl, by decide⟩
    · simp only [skipColon, hc, if_false]
      exact noSlashDrop_refl _

theorem dropWhileSpace_noSlashDrop (s : List Char) :
    NoSlashDrop s (s.dropWhile isPySpace) := by
  refine ⟨s.takeWhile isPySpace, (List.takeWhile_append_dropWhile isPySpace s).symm, ?_⟩
  intro c hc hslash
  have := List.mem_takeWhile_imp hc
  subst hslash
  simp [isPySpace] at this

theorem skipQuote_noSlashDrop (s : List Char) : NoSlashDrop s (skipQuote s) := by
  match s with
  | [] => exact noSlashDrop_refl []
  | c :: r =>
    by_cases hc : (c = dquote || c = squote) = true
    · simp only [skipQuote, hc, if_true]
      refine ⟨[c], rfl, ?_⟩
      intro x hx
      simp at hx
      subst hx
      rcases Bool.or_eq_true_iff.1 hc with h | h
      · rw [of_decide_eq_true h]; decide
      · rw [of_decide_eq_true h]; decide
    · rw [Bool.not_eq_true] at hc
      simp only [skipQuote, hc, if_false]
      exact noSlashDrop_refl _

theorem skipLabel_noSlashDrop (s : List Char) : NoSlashDrop s (skipLabel s) :=
  noSlashDrop_trans
    (noSlashDrop_trans
      (noSlashDrop_trans (skipLink_noSlashDrop s) (skipColon_noSlashDrop (skipLink s)))
      (dropWhileSpace_noSlashDrop (skipColon (skipLink s))))
    (skipQuote_noSlashDrop ((skipColon (skipLink s)).dropWhile isPySpace))

/-- `matchAt` fails whenever the mandatory literal is not what follows the
skipped optional prefix. -/
theorem matchAt_eq_none_of_notDocStart (s : List Char)
    (h : docPath.isPrefixOf (skipLabel s) = false) : matchAt s = none := by
  unfold matchAt
  simp only [h, Bool.false_eq_true, if_false]

/-- Any successful `matchAt` exhibits an occurrence of `/document-definitions/`
followed by a valid token character inside its input. -/
theorem matchAt_some_decomp (s r : List Char) (h : matchAt s = some r) :
    ∃ pre c post, validTokenChar c = true ∧ s = pre ++ docPath ++ c :: post := by
  obtain ⟨d, hd, hslash⟩ := skipLabel_noSlashDrop s
  unfold matchAt at h
  by_cases hp : docPath.isPrefixOf (skipLabel s)
  · have heq : docPath ++ (skipLabel s).drop docPath.length = skipLabel s :=
      List.prefix_iff_eq_append.1 (List.isPrefixOf_iff_prefix.1 hp)
    simp only [hp, if_true] at h
    cases hu : (skipLabel s).drop docPath.length with
    | nil =>
      rw [hu] at h
      simp at h
    | cons c u2 =>
      rw [hu] at h heq
      by_cases hc : validTokenChar c = true
      · rw [← heq] at hd
        exact ⟨d, c, u2, hc, hd.trans (List.append_assoc d docPath (c :: u2)).symm⟩
      · rw [Bool.not_eq_true] at hc
        simp [List.takeWhile, hc] at h
  · simp [hp] at h

/-- The greedy `[^\s"\x27\\]+` run stops exactly at the end of the token when
the tail is empty or starts with an invalid character. -/
theorem takeWhile_token (token tail : List Char)
    (htok : ∀ c ∈ token, validTokenChar c = true)
    (htail : tail = [] ∨ ∃ c rest2, tail = c :: rest2 ∧ validTokenChar c = false) :
    (token ++ tail).takeWhile validTokenChar = token := by
  induction token with
  | nil =>
    rcases htail with h | ⟨c, r2, h, hc⟩
    · simp [h]
    · simp [h, List.takeWhile_cons, hc]
  | cons c tk ih =>
    rw [List.cons_append, List.takeWhile_cons, htok c (List.mem_cons_self c tk)]
    simp [ih (fun x hx => htok x (List.mem_cons_of_mem c hx))]

/-- On an input of the form `pre ++ docPath ++ token ++ tail` where `pre`
contains no slash, the token is non-empty and made of valid characters, and
the tail is empty or starts with an invalid character, `matchAt` either fails
or captures exactly `docPath ++ token`: the skipping of the optional regex
elements never crosses a slash, so the only occurrence of the mandatory
literal it can reach is the intended one. -/
theorem matchAt_append (pre token tail : List Char)
    (hpre : ∀ c ∈ pre, c ≠ '/')
    (htok : ∀ c ∈ token, validTokenChar c = true) (hne : token ≠ [])
    (htail : tail = [] ∨ ∃ c rest2, tail = c :: rest2 ∧ validTokenChar c = false) :
    matchAt (pre ++ docPath ++ token ++ tail) = none ∨
    matchAt (pre ++ docPath ++ token ++ tail) = some (docPath ++ token) := by
  obtain ⟨d, hd, hslash⟩ := skipLabel_noSlashDrop (pre ++ docPath ++ token ++ tail)
  have hs : pre ++ docPath ++ token ++ tail
      = pre ++ '/' :: (docTailChars ++ (token ++ tail)) := by
    simp [docPath]
  rw [hs] at hd ⊢
  have key : ∃ a2, skipLabel (pre ++ '/' :: (docTailChars ++ (token ++ tail)))
      = a2 ++ '/' :: (docTailChars ++ (token ++ tail)) ∧ ∀ c ∈ a2, c ≠ '/' := by
    rcases List.append_eq_append_iff.1 hd.symm with ⟨a2, ha2, hskip⟩ | ⟨c2, hc2, hrest⟩
    · refine ⟨a2, hskip, ?_⟩
      intro c hc
      exact hpre c (by rw [ha2]; exact List.mem_append.2 (Or.inr hc))
    · cases c2 with
      | nil =>
        refine ⟨[], ?_, by simp⟩
        simpa using hrest.symm
      | cons x xs =>
        exfalso
        have hx : x = '/' := by
          rw [List.cons_append] at hrest
          exact (List.cons.injEq _ _ _ _ ▸ hrest).1.symm
        exact hslash x
          (by rw [hc2]; exact List.mem_append.2 (Or.inr (List.mem_cons_self x xs))) hx
  obtain ⟨a2, hsk, ha2⟩ := key
  cases a2 with
  | nil =>
    right
    have hsk2 : skipLabel (pre ++ '/' :: (docTailChars ++ (token ++ tail)))
        = docPath ++ (token ++ tail) := by
      rw [hsk]
      simp [docPath]
    unfold matchAt
    rw [hsk2, if_pos (List.isPrefixOf_iff_prefix.2 (List.prefix_append _ _))]
    rw [List.drop_left, takeWhile_token token tail htok htail, if_neg hne]
  | cons x xs =>
    left
    have hx : ('/' == x) = false :=
      beq_eq_false_iff_ne.mpr (Ne.symm (ha2 x (List.mem_cons_self x xs)))
    refine matchAt_eq_none_of_notDocStart _ ?_
    rw [hsk]
    simp only [docPath, List.cons_append, List.isPrefixOf, hx, Bool.false_and]


/-- The optional-prefix skipper is the identity on a string that starts with a
slash: none of the optional elements can consume a slash. -/
theorem skipLabel_slash (Y : List Char) : skipLabel ('/' :: Y) = '/' :: Y := by
  have h1 : linkChars.isPrefixOf ('/' :: Y) = false := by
    have hlc : ('l' == '/') = false := by decide
    simp [linkChars, List.isPrefixOf, hlc]
  have h2 : skipLink ('/' :: Y) = '/' :: Y := by
    unfold skipLink
    simp only [h1, Bool.false_eq_true, if_false]
  have h3 : skipColon ('/' :: Y) = '/' :: Y := by
    simp only [skipColon]
    rw [if_neg (by decide : ¬ ('/' : Char) = ':')]
  have h4 : List.dropWhile isPySpace ('/' :: Y) = '/' :: Y := by
    rw [List.dropWhile_cons]
    simp [(by decide : isPySpace '/' = false)]
  have h5 : skipQuote ('/' :: Y) = '/' :: Y := by
    simp only [skipQuote]
    simp only [(by decide : (decide (('/' : Char) = dquote) || decide (('/' : Char) = squote)) = false),
      Bool.false_eq_true, if_false]
  unfold skipLabel
  rw [h2, h3, h4, h5]

/-- `matchAt` evaluated when the skipped input starts with the mandatory
literal. -/
theorem matchAt_eq_of_docStart (s u : List Char) (h : skipLabel s = docPath ++ u) :
    matchAt s =
      (if u.takeWhile validTokenChar = [] then none
       else some (docPath ++ u.takeWhile validTokenChar)) := by
  unfold matchAt
  simp only [h, List.isPrefixOf_iff_prefix, List.prefix_append, if_true, List.drop_left]

/-- `matchAt` at the start of the intended occurrence succeeds and captures
exactly `docPath ++ token`. -/
theorem matchAt_pos (token tail : List Char)
    (htok : ∀ c ∈ token, validTokenChar c = true) (hne : token ≠ [])
    (htail : tail = [] ∨ ∃ c rest2, tail = c :: rest2 ∧ validTokenChar c = false) :
    matchAt (docPath ++ (token ++ tail)) = some (docPath ++ token) := by
  have hs : skipLabel (docPath ++ (token ++ tail)) = docPath ++ (token ++ tail) := by
    have e : docPath ++ (token ++ tail) = '/' :: (docTailChars ++ (token ++ tail)) := by
      simp [docPath]
    rw [e, skipLabel_slash, ← e]
  rw [matchAt_eq_of_docStart _ (token ++ tail) hs,
    takeWhile_token token tail htok htail, if_neg hne]

/-- Leftmost search on a reply of the shape
`pre ++ /document-definitions/ ++ token ++ tail` where `pre` has no slash
(this covers an optional `link:` label, optional quoting, and any other
slash-free leading text): the search returns exactly the intended capture. -/
theorem reSearch_append (pre token tail : List Char)
    (hpre : ∀ c ∈ pre, c ≠ '/')
    (htok : ∀ c ∈ token, validTokenChar c = true) (hne : token ≠ [])
    (htail : tail = [] ∨ ∃ c rest2, tail = c :: rest2 ∧ validTokenChar c = false) :
    reSearch (pre ++ docPath ++ token ++ tail) = some (docPath ++ token) := by
  induction pre with
  | nil =>
    have hshape : ([] : List Char) ++ docPath ++ token ++ tail
        = '/' :: (docTailChars ++ (token ++ tail)) := by
      simp [docPath]
    rw [hshape]
    have hm : matchAt ('/' :: (docTailChars ++ (token ++ tail))) = some (docPath ++ token) := by
      have e : '/' :: (docTailChars ++ (token ++ tail)) = docPath ++ (token ++ tail) := by
        simp [docPath]
      rw [e]
      exact matchAt_pos token tail htok hne htail
    simp only [reSearch, hm]
  | cons c0 pre2 ih =>
    have hpre2 : ∀ c ∈ pre2, c ≠ '/' := fun c hc => hpre c (List.mem_cons_of_mem c0 hc)
    have hshape : (c0 :: pre2) ++ docPath ++ token ++ tail
        = c0 :: (pre2 ++ docPath ++ token ++ tail) := by
      simp
    have hm := matchAt_append (c0 :: pre2) token tail hpre htok hne htail
    rw [hshape] at hm ⊢
    rcases hm with hm | hm
    · simp only [reSearch, hm]
      exact ih hpre2
    · simp only [reSearch, hm]

/-- `rstrip` is the identity on a string with no single quote. -/
theorem pyRstripSquote_eq_self (s : List Char) (h : ∀ c ∈ s, c ≠ squote) :
    pyRstripSquote s = s := by
  unfold pyRstripSquote
  have hdw : s.reverse.dropWhile (fun c => c == squote) = s.reverse := by
    cases hr : s.reverse with
    | nil => simp
    | cons c r =>
      rw [List.dropWhile_cons]
      have hc : c ∈ s := by
        rw [← List.mem_reverse, hr]
        exact List.mem_cons_self _ _
      simp [beq_eq_false_iff_ne.mpr (h c hc)]
  rw [hdw, List.reverse_reverse]

/-- A valid token character is not a single quote. -/
theorem validTokenChar_ne_squote {c : Char} (h : validTokenChar c = true) : c ≠ squote :=
  fun he => absurd (he ▸ h) (by decide)

/-- Claim C4: for every selector reply of the shape
`pre ++ "/document-definitions/" ++ token ++ tail` — where the leading text
`pre` contains no slash (so it may be empty, a label such as `link:`, an
opening quote, or both), the token is a non-empty run of characters the regex
accepts, and the reply continues (if at all) with a character the regex
rejects, e.g. a closing quote — `parse_relative_path_with_regex` returns
`/document-definitions/<token>` verbatim.  The result does not depend on
`pre`, so it is identical with and without the label prefix; and since the
captured token can never contain a quote, the trailing-quote strip of
`rstrip` never changes the captured text (a closing quote is simply excluded
from the match). -/
theorem c4_link_extraction (pre token tail : List Char)
    (hpre : ∀ c ∈ pre, c ≠ '/')
    (htok : ∀ c ∈ token, validTokenChar c = true) (hne : token ≠ [])
    (htail : tail = [] ∨ ∃ c rest2, tail = c :: rest2 ∧ validTokenChar c = false) :
    parse_relative_path_with_regex (pre ++ docPath ++ token ++ tail)
      = some (docPath ++ token) := by
  unfold parse_relative_path_with_regex
  rw [reSearch_append pre token tail hpre htok hne htail]
  simp only [Option.map_some']
  rw [pyRstripSquote_eq_self]
  intro c hc
  rcases List.mem_append.1 hc with h | h
  · exact (by decide : ∀ c ∈ docPath, c ≠ squote) c h
  · exact validTokenChar_ne_squote (htok c h)

/-- Witness for C4 at the concrete reply `link: '/document-definitions/abc123'`
(label present, single quotes, trailing quote after the token). -/
theorem c4_link_extraction_witness :
    parse_relative_path_with_regex
        (("link: ".toList ++ [squote]) ++ docPath ++ "abc123".toList ++ [squote])
      = some (docPath ++ "abc123".toList) :=
  c4_link_extraction ("link: ".toList ++ [squote]) ("abc123".toList) [squote]
    (by decide) (by decide) (by decide)
    (Or.inr ⟨squote, [], rfl, by decide⟩)

/-- Claim C8: a reply containing no substring of the shape
`/document-definitions/<token>` (the literal followed by at least one
character the regex accepts) yields `None`; the function is total, so it
cannot raise. -/
theorem c8_no_candidate (s : List Char)
    (h : ∀ pre c post, validTokenChar c = true → s ≠ pre ++ docPath ++ c :: post) :
    parse_relative_path_with_regex s = none := by
  have hs : reSearch s = none := by
    induction s with
    | nil => rfl
    | cons c0 rest ih =>
      have hm : matchAt (c0 :: rest) = none := by
        cases hmc : matchAt (c0 :: rest) with
        | none => rfl
        | some r =>
          obtain ⟨pre, c, post, hc, heq⟩ := matchAt_some_decomp _ _ hmc
          exact absurd heq (h pre c post hc)
      simp only [reSearch, hm]
      exact ih (fun pre c post hc heq =>
        h (c0 :: pre) c post hc (by rw [heq]; simp))
  unfold parse_relative_path_with_regex
  rw [hs]
  rfl

/-- Witness for C8: the reply `hello` is shorter than the mandatory literal,
so it cannot contain a candidate. -/
theorem c8_no_candidate_witness :
    parse_relative_path_with_regex ("hello".toList) = none := by
  refine c8_no_candidate _ ?_
  intro pre c post hc heq
  have hlen := congrArg List.length heq
  simp [docPath, docTailChars] at hlen
  omega

/-- Claim C5: absolute-URL resolution.  A relative path not starting with
`http` resolves to `base_url ++ path ++ suffix`; a path already starting with
`http` is returned unchanged with no suffix; and resolution is idempotent
whenever the base URL itself starts with `http` — which holds for the base
URL the program actually passes (`https://sosmeta.thl.fi`), as the final
conjunct states concretely. -/
theorem c5_url_resolution (b p r : List Char) :
    (httpChars.isPrefixOf r = false → resolve_selected_link b p r = b ++ r ++ p) ∧
    (httpChars.isPrefixOf r = true → resolve_selected_link b p r = r) ∧
    (httpChars.isPrefixOf b = true →
      resolve_selected_link b p (resolve_selected_link b p r) = resolve_selected_link b p r) ∧
    (resolve_selected_link mainBaseUrl mainUrlSuffix
        (resolve_selected_link mainBaseUrl mainUrlSuffix r)
      = resolve_selected_link mainBaseUrl mainUrlSuffix r) := by
  have key : ∀ b2 p2 r2 : List Char, httpChars.isPrefixOf b2 = true →
      resolve_selected_link b2 p2 (resolve_selected_link b2 p2 r2)
        = resolve_selected_link b2 p2 r2 := by
    intro b2 p2 r2 hb
    by_cases hr : httpChars.isPrefixOf r2 = true
    · simp [resolve_selected_link, hr]
    · rw [Bool.not_eq_true] at hr
      have h1 : resolve_selected_link b2 p2 r2 = b2 ++ r2 ++ p2 := by
        simp [resolve_selected_link, hr]
      have h2 : httpChars.isPrefixOf (b2 ++ r2 ++ p2) = true := by
        rw [List.isPrefixOf_iff_prefix] at hb ⊢
        rw [List.append_assoc]
        exact hb.trans (List.prefix_append b2 (r2 ++ p2))
      rw [h1]
      unfold resolve_selected_link
      rw [if_pos h2]
  refine ⟨?_, ?_, key b p r, key mainBaseUrl mainUrlSuffix r (by decide)⟩
  · intro hr
    simp [resolve_selected_link, hr]
  · intro hr
    simp [resolve_selected_link, hr]

/-- Witness for C5: a relative path gets base and suffix wrapped around it, an
absolute path is unchanged, and re-resolving is the identity. -/
theorem c5_url_resolution_witness :
    resolve_selected_link mainBaseUrl mainUrlSuffix (docPath ++ "abc123".toList)
        = mainBaseUrl ++ (docPath ++ "abc123".toList) ++ mainUrlSuffix ∧
    resolve_selected_link mainBaseUrl mainUrlSuffix ("http://x".toList)
        = "http://x".toList ∧
    resolve_selected_link mainBaseUrl mainUrlSuffix
        (resolve_selected_link mainBaseUrl mainUrlSuffix (docPath ++ "abc123".toList))
      = resolve_selected_link mainBaseUrl mainUrlSuffix (docPath ++ "abc123".toList) :=
  ⟨(c5_url_resolution mainBaseUrl mainUrlSuffix (docPath ++ "abc123".toList)).1 (by decide),
   (c5_url_resolution mainBaseUrl mainUrlSuffix ("http://x".toList)).2.1 (by decide),
   (c5_url_resolution mainBaseUrl mainUrlSuffix (docPath ++ "abc123".toList)).2.2.2⟩

/-- The selector reply of the end-to-end scenario:
`link: '/document-definitions/abc123'`. -/
def c7Reply : List Char :=
  ("link: ".toList ++ [squote]) ++ docPath ++ "abc123".toList ++ [squote]

/-- The form-filler reply of the end-to-end scenario: the JSON object wrapped
in code fences. -/
def c7Fences : List Char := "```json\x7b\"a\":1\x7d```".toList

/-- The expected final artifact of the end-to-end scenario. -/
def c7Payload : List Char := "\x7b\"a\":1\x7d".toList

/-- The oracle of the end-to-end scenario: every agent call succeeds, the
selector answers `c7Reply`, the fetch of the resolved instruction link yields
`<form>...</form>`, and the filler answers the fenced JSON. -/
def c7Oracle : TopicOracle :=
  { selectorThreadOk := true, selectorMessageOk := true, selectorRunOk := true,
    selectorReply := some (some c7Reply), selDeleteFails := false,
    fetch := fun _ => some ("<form>...</form>".toList),
    fillerMessageOk := true, fillerRunOk := true,
    fillerReply := some (some c7Fences) }

/-- Claim C7: in the end-to-end scenario the topic ends `Filled`, and the
filled-document artifact written for the topic is exactly the JSON object
with the code fences stripped. -/
theorem c7_end_to_end :
    (process_topic c7Oracle mainBaseUrl mainUrlSuffix ("topic1".toList) 2).result
        = some c7Payload ∧
    (WTag.filledForm, c7Payload)
        ∈ (process_topic c7Oracle mainBaseUrl mainUrlSuffix ("topic1".toList) 2).writes := by
  decide

/-- In the rebuild branch (file missing or stale) the trace starts with the
`fetch_web_page_content` call of source line 372. -/
theorem cachePhase_stale (env : Env)
    (h : (env.fileExists && !(is_file_older_than_a_week env.today env.fileDate)) = false) :
    (cachePhase env).1.head? = some Event.fetchSearch := by
  unfold cachePhase
  simp only [h, Bool.false_eq_true, if_false]
  repeat' split
  all_goals rfl

/-- In the fresh branch (file exists and is within the threshold) the cache
phase performs no external calls at all. -/
theorem cachePhase_fresh (env : Env)
    (h : (env.fileExists && !(is_file_older_than_a_week env.today env.fileDate)) = true) :
    (cachePhase env).1 = [] := by
  unfold cachePhase
  simp only [h, if_true]
  split <;> rfl

/-- Claim C3: given that the persisted index file exists, the cache phase
performs zero fetch and zero agent/thread calls (its trace is empty) exactly
when the recorded creation date is within one week; it enters the rebuild
path (the `fetchSearch` call happens) exactly when the file is stale; a
recorded date `D` is stale exactly when `today - D > 7` days; and a missing
or malformed timestamp is treated as infinitely stale, forcing the rebuild. -/
theorem c3_cache_freshness (env : Env) (hex : env.fileExists = true) :
    ((cachePhase env).1 = [] ↔
      is_file_older_than_a_week env.today env.fileDate = false) ∧
    (Event.fetchSearch ∈ (cachePhase env).1 ↔
      is_file_older_than_a_week env.today env.fileDate = true) ∧
    (∀ d, env.fileDate = some d →
      (is_file_older_than_a_week env.today env.fileDate = true ↔ env.today - d > 7)) ∧
    (env.fileDate = none → is_file_older_than_a_week env.today env.fileDate = true) := by
  have hcond : (env.fileExists && !(is_file_older_than_a_week env.today env.fileDate))
      = !(is_file_older_than_a_week env.today env.fileDate) := by
    rw [hex, Bool.true_and]
  by_cases hb : is_file_older_than_a_week env.today env.fileDate = true
  · have hhead := cachePhase_stale env (by rw [hcond, hb]; rfl)
    obtain ⟨t, ht⟩ : ∃ t, (cachePhase env).1 = Event.fetchSearch :: t := by
      cases htr : (cachePhase env).1 with
      | nil => rw [htr] at hhead; cases hhead
      | cons a t =>
        rw [htr] at hhead
        simp only [List.head?_cons, Option.some.injEq] at hhead
        exact ⟨t, by rw [hhead]⟩
    refine ⟨?_, ?_, ?_, ?_⟩
    · simp [ht, hb]
    · simp [ht, hb]
    · intro d hd
      rw [hd]
      unfold is_file_older_than_a_week
      simp
    · intro hd
      rw [hd]
      rfl
  · rw [Bool.not_eq_true] at hb
    have ht := cachePhase_fresh env (by rw [hcond, hb]; rfl)
    refine ⟨?_, ?_, ?_, ?_⟩
    · simp [ht, hb]
    · simp [ht, hb]
    · intro d hd
      rw [hd]
      unfold is_file_older_than_a_week
      simp
    · intro hd
      rw [hd]
      rfl

/-- Witness for C3 at a concrete environment whose index file exists. -/
theorem c3_cache_freshness_witness :
    ((cachePhase
        { configOk := true, fileExists := true, fileDate := some 0, today := 3,
          cacheReadOk := true, fetchIndexOk := true, parserAgentOk := true,
          parserThreadOk := true, parserMessageOk := true, parserRunOk := true,
          parserListOk := true, parserReply := some ("x".toList), rereadOk := true,
          parserDeleteAgentFails := false, parserDeleteThreadFails := false,
          fillerAgentOk := fun _ => true, fillerThreadOk := fun _ => true,
          selectorAgentOk := fun _ => true, deleteAgentFails := fun _ => false,
          deleteThreadFails := fun _ => false,
          topicEnv := fun _ => c7Oracle }).1 = [] ↔
      is_file_older_than_a_week 3 (some 0) = false) :=
  (c3_cache_freshness _ rfl).1

/-- Every `process_topic` invocation consumes exactly one instrumentation id. -/
@[simp] theorem process_topic_fresh (o : TopicOracle) (b p t : List Char) (f : Nat) :
    (process_topic o b p t f).fresh = f + 1 := by
  unfold process_topic
  repeat' split
  all_goals rfl

/-- The lifecycle trace of one `process_topic` invocation: either nothing (the
selector thread was never created) or exactly one create and one delete of
that selector thread.  In particular the Topic Processor never touches the
group agents or the long-lived filler thread. -/
theorem process_topic_events (o : TopicOracle) (b p t : List Char) (f : Nat) :
    (process_topic o b p t f).events = [] ∨
    (process_topic o b p t f).events =
      [Event.createThread ThreadKind.selectorT f, Event.deleteThread ThreadKind.selectorT f] := by
  unfold process_topic
  repeat' split
  all_goals simp

set_option maxHeartbeats 2000000 in
/-- A single-stage failure in the Topic Processor — failed thread creation,
failed message, failed run, failed message listing, empty reply, a reply with
no extractable link, or a fetch failure — makes `process_topic` return the
skip outcome `none`. -/
theorem process_topic_skips (o : TopicOracle)
    (hfail : o.selectorThreadOk = false ∨ o.selectorMessageOk = false ∨
      o.selectorRunOk = false ∨ o.selectorReply = none ∨ o.selectorReply = some none ∨
      o.selectorReply = some (some []) ∨
      (∃ s, o.selectorReply = some (some s) ∧ parse_relative_path_with_regex s = none) ∨
      (∀ u, o.fetch u = none))
    (b p t : List Char) (f : Nat) :
    (process_topic o b p t f).result = none := by
  unfold process_topic
  rcases hfail with h | h | h | h | h | h | ⟨s, hs, hp⟩ | h <;> (repeat' split)
  all_goals (try rfl)
  all_goals simp_all

theorem isHash_markerA : isHashTopic ['#', ' ', 'A'] = true := by decide

theorem isHash_markerB : isHashTopic ['#', ' ', 'B'] = true := by decide

theorem isHash_t1 : isHashTopic ['t', '1'] = false := by decide

theorem isHash_t2 : isHashTopic ['t', '2'] = false := by decide

theorem isHash_t3 : isHashTopic ['t', '3'] = false := by decide

/-- The topic loop on `[# A, t1, t2, # B, t3]` when every create succeeds and
no delete raises: group A gets filler agent 2, filler thread 3, selector
agent 4; they are deleted at the `# B` marker (the selector only after the new
filler resources are created); group B gets filler agent 7, filler thread 8,
selector agent 9, deleted at the end of the run; the three leaf topics (list
positions 1, 2 and 4) are each handed to the Topic Processor. -/
theorem mainLoop_ABB (env : Env)
    (hca : ∀ n, env.fillerAgentOk n = true) (hct : ∀ n, env.fillerThreadOk n = true)
    (hcs : ∀ n, env.selectorAgentOk n = true)
    (hda : ∀ n, env.deleteAgentFails n = false) (hdt : ∀ n, env.deleteThreadFails n = false) :
    mainLoop env topicsABB 0 loopSt0 =
      ([Event.createAgent AgentKind.fillerA 2, Event.createThread ThreadKind.fillerT 3,
        Event.createAgent AgentKind.selectorA 4]
        ++ (process_topic (env.topicEnv 1) mainBaseUrl mainUrlSuffix ("t1".toList) 5).events
        ++ (process_topic (env.topicEnv 2) mainBaseUrl mainUrlSuffix ("t2".toList) 6).events
        ++ [Event.deleteAgent AgentKind.fillerA 2, Event.deleteThread ThreadKind.fillerT 3,
            Event.createAgent AgentKind.fillerA 7, Event.createThread ThreadKind.fillerT 8,
            Event.deleteAgent AgentKind.selectorA 4, Event.createAgent AgentKind.selectorA 9]
        ++ (process_topic (env.topicEnv 4) mainBaseUrl mainUrlSuffix ("t3".toList) 10).events
        ++ [Event.deleteAgent AgentKind.selectorA 9, Event.deleteAgent AgentKind.fillerA 7,
            Event.deleteThread ThreadKind.fillerT 8],
       [1, 2, 4]) := by
  simp [topicsABB, mainLoop, loopSt0, endCleanup, isHash_markerA, isHash_markerB,
    isHash_t1, isHash_t2, isHash_t3, hca, hct, hcs, hda, hdt]

/-- Test for a create event of a given agent kind. -/
def isCreateAgentOf (k : AgentKind) : Event → Bool
  | Event.createAgent k2 _ => k2 == k
  | _ => false

/-- Test for a delete event of a given agent kind. -/
def isDeleteAgentOf (k : AgentKind) : Event → Bool
  | Event.deleteAgent k2 _ => k2 == k
  | _ => false

/-- Test for a create event of a given thread kind. -/
def isCreateThreadOf (k : ThreadKind) : Event → Bool
  | Event.createThread k2 _ => k2 == k
  | _ => false

/-- Test for a delete event of a given thread kind. -/
def isDeleteThreadOf (k : ThreadKind) : Event → Bool
  | Event.deleteThread k2 _ => k2 == k
  | _ => false

/-- Test for any create event. -/
def isCreate : Event → Bool
  | Event.createAgent _ _ => true
  | Event.createThread _ _ => true
  | _ => false

/-- The delete call that releases what a create call allocated. -/
def mateOf : Event → Event
  | Event.createAgent k i => Event.deleteAgent k i
  | Event.createThread k i => Event.deleteThread k i
  | e => e

/-- The happy-path environment: fresh cache, every create succeeds, no delete
raises, and every topic runs the end-to-end scenario oracle. -/
def envHappy : Env :=
  { configOk := true, fileExists := true, fileDate := some 0, today := 3,
    cacheReadOk := true, fetchIndexOk := true, parserAgentOk := true,
    parserThreadOk := true, parserMessageOk := true, parserRunOk := true,
    parserListOk := true, parserReply := some ("x".toList), rereadOk := true,
    parserDeleteAgentFails := false, parserDeleteThreadFails := false,
    fillerAgentOk := fun _ => true, fillerThreadOk := fun _ => true,
    selectorAgentOk := fun _ => true, deleteAgentFails := fun _ => false,
    deleteThreadFails := fun _ => false,
    topicEnv := fun _ => c7Oracle }

/-- Amended claim C1 (group lifecycle): on the topic list
`[group A, topic1, topic2, group B, topic3]`, when every agent/thread
creation succeeds and no deletion raises — and regardless of how the
individual topics fare — the run creates exactly 2 filler agents, 2 filler
threads and 2 selector agents and issues exactly 2 delete calls for each of
these kinds; selector-thread delete calls equal selector-thread create calls;
and every create event of any kind has its matching delete event in the
trace. -/
theorem c1_group_lifecycle (env : Env)
    (hcfg : env.configOk = true)
    (hcache : cachePhase env = ([], CacheOutcome.loaded))
    (hca : ∀ n, env.fillerAgentOk n = true) (hct : ∀ n, env.fillerThreadOk n = true)
    (hcs : ∀ n, env.selectorAgentOk n = true)
    (hda : ∀ n, env.deleteAgentFails n = false) (hdt : ∀ n, env.deleteThreadFails n = false) :
    (mainRun env topicsABB).1.countP (isCreateAgentOf AgentKind.fillerA) = 2 ∧
    (mainRun env topicsABB).1.countP (isDeleteAgentOf AgentKind.fillerA) = 2 ∧
    (mainRun env topicsABB).1.countP (isCreateAgentOf AgentKind.selectorA) = 2 ∧
    (mainRun env topicsABB).1.countP (isDeleteAgentOf AgentKind.selectorA) = 2 ∧
    (mainRun env topicsABB).1.countP (isCreateThreadOf ThreadKind.fillerT) = 2 ∧
    (mainRun env topicsABB).1.countP (isDeleteThreadOf ThreadKind.fillerT) = 2 ∧
    (mainRun env topicsABB).1.countP (isCreateThreadOf ThreadKind.selectorT)
      = (mainRun env topicsABB).1.countP (isDeleteThreadOf ThreadKind.selectorT) ∧
    (∀ e ∈ (mainRun env topicsABB).1, isCreate e = true → mateOf e ∈ (mainRun env topicsABB).1) := by
  have hmr : (mainRun env topicsABB).1
      = [Event.createAgent AgentKind.fillerA 2, Event.createThread ThreadKind.fillerT 3,
         Event.createAgent AgentKind.selectorA 4]
        ++ (process_topic (env.topicEnv 1) mainBaseUrl mainUrlSuffix ("t1".toList) 5).events
        ++ (process_topic (env.topicEnv 2) mainBaseUrl mainUrlSuffix ("t2".toList) 6).events
        ++ [Event.deleteAgent AgentKind.fillerA 2, Event.deleteThread ThreadKind.fillerT 3,
            Event.createAgent AgentKind.fillerA 7, Event.createThread ThreadKind.fillerT 8,
            Event.deleteAgent AgentKind.selectorA 4, Event.createAgent AgentKind.selectorA 9]
        ++ (process_topic (env.topicEnv 4) mainBaseUrl mainUrlSuffix ("t3".toList) 10).events
        ++ [Event.deleteAgent AgentKind.selectorA 9, Event.deleteAgent AgentKind.fillerA 7,
            Event.deleteThread ThreadKind.fillerT 8] := by
    unfold mainRun
    rw [hcache, mainLoop_ABB env hca hct hcs hda hdt]
    simp [hcfg]
  rcases process_topic_events (env.topicEnv 1) mainBaseUrl mainUrlSuffix ("t1".toList) 5
      with h1 | h1 <;>
    rcases process_topic_events (env.topicEnv 2) mainBaseUrl mainUrlSuffix ("t2".toList) 6
        with h2 | h2 <;>
      rcases process_topic_events (env.topicEnv 4) mainBaseUrl mainUrlSuffix ("t3".toList) 10
          with h3 | h3 <;>
        (rw [h1, h2, h3] at hmr; rw [hmr]; decide)

/-- Witness for amended C1 at the happy-path environment. -/
theorem c1_group_lifecycle_witness :
    (mainRun envHappy topicsABB).1.countP (isCreateAgentOf AgentKind.fillerA) = 2 :=
  (c1_group_lifecycle envHappy rfl (by decide) (fun _ => rfl) (fun _ => rfl)
    (fun _ => rfl) (fun _ => rfl) (fun _ => rfl)).1

/-- An oracle on which every Topic Processor stage fails at the first step. -/
def failOracle : TopicOracle :=
  { selectorThreadOk := false, selectorMessageOk := false, selectorRunOk := false,
    selectorReply := none, selDeleteFails := false, fetch := fun _ => none,
    fillerMessageOk := false, fillerRunOk := false, fillerReply := none }

/-- Environment in which the second filler-agent creation (instrumentation
id 7, at the `# B` marker) fails while everything else succeeds. -/
def envCreateFailB : Env :=
  { envHappy with fillerAgentOk := fun n => n == 2, topicEnv := fun _ => failOracle }

/-- Counterexample to claim C1 as stated: with the scenario topic list and an
intermediate failure — the filler-agent creation for group B returns `None` —
the run ends (`main` returns "Exiting") with group A's selector agent created
but never deleted. -/
theorem c1_counterexample :
    Event.createAgent AgentKind.selectorA 4 ∈ (mainRun envCreateFailB topicsABB).1 ∧
    Event.deleteAgent AgentKind.selectorA 4 ∉ (mainRun envCreateFailB topicsABB).1 := by
  decide

/-- Amended claim C2: when the run aborts because of a configuration error,
or in the rebuild path because the index fetch fails or the parser-agent
creation fails, then indeed no agent or thread was created (the whole trace
holds at most the fetch attempt).  Aborts at the later rebuild stages are the
subject of the counterexample: they do leave the parser resources dangling. -/
theorem c2_abort_before_allocation (env : Env) (topics : List (List Char))
    (h : env.configOk = false ∨
      ((env.fileExists && !(is_file_older_than_a_week env.today env.fileDate)) = false ∧
       (env.fetchIndexOk = false ∨ env.parserAgentOk = false))) :
    ∀ e ∈ (mainRun env topics).1, e = Event.fetchSearch := by
  rcases h with h | ⟨hstale, hfa⟩
  · simp [mainRun, h]
  · have hc : cachePhase env = ([Event.fetchSearch], CacheOutcome.aborted) := by
      unfold cachePhase
      simp only [hstale, Bool.false_eq_true, if_false]
      rcases hfa with h2 | h2
      · rw [if_pos h2]
      · by_cases h3 : env.fetchIndexOk = false
        · rw [if_pos h3]
        · rw [if_neg h3, if_pos h2]
    unfold mainRun
    by_cases hcfg : env.configOk = false
    · simp [hcfg]
    · rw [if_neg hcfg, hc]
      intro e he
      simpa using he

/-- Environment in which the rebuild is entered (file missing), the parser
agent and thread are created, and then the parser run fails. -/
def envRunFail : Env :=
  { envHappy with fileExists := false, parserRunOk := false }

/-- Counterexample to claim C2 as stated: an abort caused by a failed parser
run — one of the index-rebuild failures the claim lists — ends the run with
the parser agent and the parser thread created and never deleted. -/
theorem c2_counterexample :
    Event.createAgent AgentKind.parserA 0 ∈ (mainRun envRunFail topicsABB).1 ∧
    Event.deleteAgent AgentKind.parserA 0 ∉ (mainRun envRunFail topicsABB).1 ∧
    Event.createThread ThreadKind.parserT 1 ∈ (mainRun envRunFail topicsABB).1 ∧
    Event.deleteThread ThreadKind.parserT 1 ∉ (mainRun envRunFail topicsABB).1 := by
  decide

/-- Environment aborting on the index fetch. -/
def envFetchFail : Env :=
  { envHappy with fileExists := false, fetchIndexOk := false }

/-- Witness for amended C2: the fetch-failure abort creates nothing — every
event of the run is the fetch attempt itself. -/
theorem c2_abort_before_allocation_witness :
    ((mainRun envFetchFail topicsABB).1.all (fun e => e == Event.fetchSearch)) = true := by
  have h := c2_abort_before_allocation envFetchFail topicsABB (Or.inr ⟨by decide, Or.inl rfl⟩)
  rw [List.all_eq_true]
  intro e he
  exact beq_iff_eq.mpr (h e he)

/-- Claim C6 (batch isolation): with the scenario topic list, a group setup
that succeeds, and the topic at position 1 failing at any single Topic
Processor stage (failed thread creation, failed message, failed run, failed
listing, empty reply, no extractable link, or fetch failure): that topic ends
in the skip outcome `none`; the Topic Processor never deletes the group's
long-lived filler thread (for any oracle whatsoever); and all leaf topics —
including those after the failing one — are still handed to the Topic
Processor, in order. -/
theorem c6_topic_isolation (env : Env)
    (hcfg : env.configOk = true)
    (hcache : cachePhase env = ([], CacheOutcome.loaded))
    (hca : ∀ n, env.fillerAgentOk n = true) (hct : ∀ n, env.fillerThreadOk n = true)
    (hcs : ∀ n, env.selectorAgentOk n = true)
    (hda : ∀ n, env.deleteAgentFails n = false) (hdt : ∀ n, env.deleteThreadFails n = false)
    (hfail : (env.topicEnv 1).selectorThreadOk = false ∨
      (env.topicEnv 1).selectorMessageOk = false ∨
      (env.topicEnv 1).selectorRunOk = false ∨
      (env.topicEnv 1).selectorReply = none ∨
      (env.topicEnv 1).selectorReply = some none ∨
      (env.topicEnv 1).selectorReply = some (some []) ∨
      (∃ s, (env.topicEnv 1).selectorReply = some (some s) ∧
        parse_relative_path_with_regex s = none) ∨
      (∀ u, (env.topicEnv 1).fetch u = none)) :
    (∀ b p t f, (process_topic (env.topicEnv 1) b p t f).result = none) ∧
    (∀ o b p t f i, Event.deleteThread ThreadKind.fillerT i ∉ (process_topic o b p t f).events) ∧
    (mainRun env topicsABB).2 = [1, 2, 4] := by
  refine ⟨fun b p t f => process_topic_skips (env.topicEnv 1) hfail b p t f, ?_, ?_⟩
  · intro o b p t f i hmem
    rcases process_topic_events o b p t f with h | h <;> rw [h] at hmem <;> simp at hmem
  · unfold mainRun
    rw [hcache]
    simp [hcfg, mainLoop_ABB env hca hct hcs hda hdt]

/-- Environment in which topic 1 cannot even create its selector thread. -/
def envTopicFail : Env :=
  { envHappy with
    topicEnv := fun i => if i = 1 then { c7Oracle with selectorThreadOk := false } else c7Oracle }

/-- Witness for C6: even with topic 1 failing, all three leaf topics are
processed. -/
theorem c6_topic_isolation_witness :
    (mainRun envTopicFail topicsABB).2 = [1, 2, 4] :=
  (c6_topic_isolation envTopicFail rfl (by decide)
    (fun _ => rfl) (fun _ => rfl) (fun _ => rfl) (fun _ => rfl) (fun _ => rfl)
    (Or.inl rfl)).2.2

/-- Environment in which the delete of group A's filler agent (id 2) raises at
the `# B` marker. -/
def envDeleteFail : Env :=
  { envHappy with deleteAgentFails := fun n => n == 2, topicEnv := fun _ => failOracle }

/-- Counterexample to claim C9 as stated: the raw `delete_agent` call at the
`# B` marker raises; the exception lands in the run-level handler, so the
remaining topic (position 4) is never processed, the rest of the group
teardown is skipped (filler thread 3 is never deleted) and the end-of-run
cleanup never runs (selector agent 4 is never deleted). -/
theorem c9_counterexample :
    (mainRun envDeleteFail topicsABB).2 = [1, 2] ∧
    Event.deleteThread ThreadKind.fillerT 3 ∉ (mainRun envDeleteFail topicsABB).1 ∧
    Event.deleteAgent AgentKind.selectorA 4 ∉ (mainRun envDeleteFail topicsABB).1 := by
  decide

/-- The end-to-end oracle, but the selector-thread delete on source line 222
raises. -/
def inTopicDeleteFailOracle : TopicOracle :=
  { c7Oracle with selDeleteFails := true }

/-- Environment in which topic 1's selector-thread delete raises. -/
def envTopicDeleteFail : Env :=
  { envHappy with
    topicEnv := fun i => if i = 1 then inTopicDeleteFailOracle else c7Oracle }

/-- Amended claim C9: a delete failure inside `process_topic` is caught at the
topic boundary — the topic is skipped and the batch continues, all leaf
topics still being processed; but a delete failure in `main`'s group teardown
is caught only by the run-level handler, which ends the run: the remaining
topics are dropped (processed list `[1, 2]` instead of `[1, 2, 4]`). -/
theorem c9_amended_delete_failures :
    (mainRun envTopicDeleteFail topicsABB).2 = [1, 2, 4] ∧
    (process_topic inTopicDeleteFailOracle mainBaseUrl mainUrlSuffix ("t1".toList) 5).result
      = none ∧
    (mainRun envDeleteFail topicsABB).2 = [1, 2] := by
  decide

/-- Every byte of the base64 alphabet (and the padding byte 61) is ASCII. -/
theorem b64Byte_lt128 (n : Nat) : b64Byte n < 128 := by
  unfold b64Byte
  repeat' split
  all_goals omega

/-- Every byte produced by the encoder is ASCII. -/
theorem b64encodeBytes_lt128 (l : List Nat) : ∀ y ∈ b64encodeBytes l, y < 128 := by
  induction l using b64encodeBytes.induct with
  | case1 =>
    intro y hy
    cases hy
  | case2 a =>
    intro y hy
    simp only [b64encodeBytes, List.mem_cons, List.not_mem_nil, or_false] at hy
    rcases hy with rfl | rfl | rfl | rfl <;> first | exact b64Byte_lt128 _ | omega
  | case3 a b =>
    intro y hy
    simp only [b64encodeBytes, List.mem_cons, List.not_mem_nil, or_false] at hy
    rcases hy with rfl | rfl | rfl | rfl <;> first | exact b64Byte_lt128 _ | omega
  | case4 a b c rest ih =>
    intro y hy
    simp only [b64encodeBytes, List.mem_cons] at hy
    rcases hy with rfl | rfl | rfl | rfl | hy
    · exact b64Byte_lt128 _
    · exact b64Byte_lt128 _
    · exact b64Byte_lt128 _
    · exact b64Byte_lt128 _
    · exact ih y hy

/-- `Char.ofNat` round-trips on ASCII code points. -/
theorem toNat_ofNat_of_lt {n : Nat} (h : n < 128) : (Char.ofNat n).toNat = n := by
  have hv : n.isValidChar := Or.inl (by omega)
  rw [Char.ofNat, dif_pos hv]
  rfl

/-- UTF-8 encoding inverts `Char.ofNat` on a list of ASCII byte values. -/
theorem utf8Encode_map_ofNat (l : List Nat) (h : ∀ x ∈ l, x < 128) :
    utf8Encode (l.map Char.ofNat) = l := by
  induction l with
  | nil => rfl
  | cons x xs ih =>
    have hx : x < 128 := h x (List.mem_cons_self x xs)
    simp only [utf8Encode, List.map_cons, List.flatMap_cons]
    rw [toNat_ofNat_of_lt hx]
    rw [show utf8EncodeChar x = [x] by unfold utf8EncodeChar; rw [if_pos hx]]
    have := ih (fun y hy => h y (List.mem_cons_of_mem x hy))
    simp only [utf8Encode] at this
    rw [this]
    rfl

/-- The alphabet lookup inverts the alphabet on sextets. -/
theorem b64Val_b64Byte : ∀ m, m < 64 → b64Val (b64Byte m) = m := by decide

/-- No sextet maps to the padding byte 61. -/
theorem b64Byte_ne_61 : ∀ m, m < 64 → b64Byte m ≠ 61 := by decide

/-- `b64decodeBytes` inverts `b64encodeBytes` on genuine byte strings. -/
theorem b64_decode_encode (l : List Nat) (h : ∀ x ∈ l, x < 256) :
    b64decodeBytes (b64encodeBytes l) = l := by
  induction l using b64encodeBytes.induct with
  | case1 => rfl
  | case2 a =>
    have ha : a < 256 := h a (List.mem_cons_self a [])
    unfold b64encodeBytes b64decodeBytes
    rw [if_pos rfl]
    rw [b64Val_b64Byte (a / 4) (by omega), b64Val_b64Byte (a % 4 * 16) (by omega)]
    simp only [List.cons.injEq, and_true]
    omega
  | case3 a b =>
    have ha : a < 256 := h a (by simp)
    have hb : b < 256 := h b (by simp)
    unfold b64encodeBytes b64decodeBytes
    rw [if_neg (b64Byte_ne_61 (b % 16 * 4) (by omega)), if_pos rfl]
    rw [b64Val_b64Byte (a / 4) (by omega), b64Val_b64Byte (a % 4 * 16 + b / 16) (by omega),
      b64Val_b64Byte (b % 16 * 4) (by omega)]
    simp only [List.cons.injEq, and_true]
    constructor <;> omega
  | case4 a b c rest ih =>
    have ha : a < 256 := h a (by simp)
    have hb : b < 256 := h b (by simp)
    have hc : c < 256 := h c (by simp)
    have hrest : ∀ x ∈ rest, x < 256 := fun x hx => h x (by simp [hx])
    unfold b64encodeBytes b64decodeBytes
    rw [if_neg (b64Byte_ne_61 (b % 16 * 4 + c / 64) (by omega)),
      if_neg (b64Byte_ne_61 (c % 64) (by omega))]
    rw [b64Val_b64Byte (a / 4) (by omega), b64Val_b64Byte (a % 4 * 16 + b / 16) (by omega),
      b64Val_b64Byte (b % 16 * 4 + c / 64) (by omega), b64Val_b64Byte (c % 64) (by omega)]
    rw [ih hrest]
    simp only [List.cons.injEq, and_true]
    refine ⟨by omega, by omega, by omega⟩

/-- Claim C10: the base64 helpers of the signing module round-trip — decoding
the encoder's output (a `str`, as Python hands it around) recovers the exact
input bytes; and encoding a `str` equals encoding the UTF-8 bytes of that
string, so `str` and `bytes` inputs with the same UTF-8 content encode
identically. -/
theorem c10_base64_roundtrip (bs : List Nat) (hb : ∀ x ∈ bs, x < 256) (s : List Char) :
    _decode_base64_to_bytes (PyBytesLike.str (_encode_base64 (PyBytesLike.bytes bs))) = bs ∧
    _encode_base64 (PyBytesLike.str s)
      = _encode_base64 (PyBytesLike.bytes (utf8Encode s)) := by
  constructor
  · show b64decodeBytes (utf8Encode ((b64encodeBytes bs).map Char.ofNat)) = bs
    rw [utf8Encode_map_ofNat _ (b64encodeBytes_lt128 bs), b64_decode_encode bs hb]
  · rfl

/-- Witness for C10 at concrete bytes (covering all three padding shapes is
unnecessary; one suffices to show the hypotheses are satisfiable). -/
theorem c10_base64_roundtrip_witness :
    _decode_base64_to_bytes
        (PyBytesLike.str (_encode_base64 (PyBytesLike.bytes [77, 0, 255]))) = [77, 0, 255] :=
  (c10_base64_roundtrip [77, 0, 255] (by decide) ("ok".toList)).1
